import Mathlib

/-!
Verification development for the recognition-ticker repository.

The repository has two cores:
- the Feed Loader (function getBonuses): a paginated fetch loop over a
  remote bonus API, followed by a region filter and a reshape into the
  Recognition record used by the UI;
- the Ticker Controller (component RecognitionTicker): a frame-driven
  scroll-offset state machine with a wraparound reset and a duplicated
  prefix for a seamless loop.

Embedding conventions:
- JavaScript numbers are modelled as rationals; exact rational
  arithmetic preserves every comparison and equality the claims are about.
- Strings are modelled as Lean strings, except in the initials helper
  where a name is modelled as a list of characters so that the
  character-level pipeline of the source is explicit.
- The unbounded while loop of the feed loader is modelled with explicit
  fuel; running out of fuel yields none, which is distinguished from the
  error path of the source (a thrown exception, modelled as fetchError).
- Asynchronous effects are modelled as explicit state-passing: each
  network page is a pure function from the skip offset to a response, and
  each animation frame is a pure transition on the ticker state.
-/

/-- Nested custom properties of a user, as in the User interface of the
feed loader source. -/
structure CustomProperties where
  department : String
  location : String
  role : String
  employment_status : Option String
deriving DecidableEq, Repr

/-- Raw API user object, as in the User interface of the feed loader
source. -/
structure User where
  display_name : String
  email : String
  country : String
  custom_properties : CustomProperties
  manager_email : String
  profile_pic_url : String
deriving DecidableEq, Repr

/-- Raw API bonus record, as in the BonusResult interface of the feed
loader source. -/
structure BonusResult where
  amount : Int
  giver : User
  receiver : User
  reason : String
  reason_decoded : String
  created_at : String
deriving DecidableEq, Repr

/-- One page response of the bonus API: a success flag and a result
list, the shape destructured from responseData in getBonuses. -/
structure PageResponse where
  success : Bool
  result : List BonusResult
deriving DecidableEq, Repr

/-- Flattened person record produced by the reshape stage of getBonuses
and consumed by the ticker. -/
structure Person where
  name : String
  email : String
  department : String
  profile_pic_url : String
deriving DecidableEq, Repr

/-- Recognition record produced by getBonuses and rendered by the
ticker. -/
structure Recognition where
  amount : Int
  reason_decoded : String
  giver : Person
  receiver : Person
deriving DecidableEq, Repr

/-- Outcome of the pagination while loop of getBonuses: either the
collected raw records, or the thrown fetch error. -/
inductive LoopResult where
  | ok (records : List BonusResult)
  | fetchError
deriving DecidableEq, Repr

/-- Pagination while loop of getBonuses. The remote API is a pure
function from the skip offset to a page response. The trace accumulator
records every skip value actually requested, and results accumulates the
pushed records, mirroring the results array of the source. Fuel bounds
the unbounded source loop; exhausting it yields none. -/
def getBonusesLoop (api : Nat → PageResponse) :
    Nat → Nat → List Nat → List BonusResult → Option (List Nat × LoopResult)
  | 0, _, _, _ => none
  | fuel + 1, skip, trace, results =>
    let responseData := api skip
    if responseData.success = false then
      some (trace ++ [skip], LoopResult.fetchError)
    else
      let data := responseData.result
      if 0 < data.length then
        getBonusesLoop api fuel (skip + 100) (trace ++ [skip]) (results ++ data)
      else
        some (trace ++ [skip], LoopResult.ok results)

/-- Filter and reshape stage of getBonuses: keep records whose receiver
country is BD and flatten the nested user objects, exactly as the final
filter and map of the source. -/
def filterAndReshape (results : List BonusResult) : List Recognition :=
  (results.filter (fun b => b.receiver.country = "BD")).map (fun b =>
    { amount := b.amount
      reason_decoded := b.reason_decoded
      giver :=
        { name := b.giver.display_name
          email := b.giver.email
          department := b.giver.custom_properties.department
          profile_pic_url := b.giver.profile_pic_url }
      receiver :=
        { name := b.receiver.display_name
          email := b.receiver.email
          department := b.receiver.custom_properties.department
          profile_pic_url := b.receiver.profile_pic_url } })

/-- Whole feed loader getBonuses: run the pagination loop from skip 0,
then either surface the single fetch error or filter and reshape the
collected records. -/
def getBonuses (api : Nat → PageResponse) (fuel : Nat) :
    Option (Except String (List Recognition)) :=
  match getBonusesLoop api fuel 0 [] [] with
  | none => none
  | some (_, LoopResult.fetchError) => some (Except.error "failed to fetch bonuses")
  | some (_, LoopResult.ok results) => some (Except.ok (filterAndReshape results))

/-- Specification-level filter and reshape, written directly from the
spec sentences: walk the collected sequence in order, retain exactly the
records whose receiver region code is BD, and flatten display name to
name, the nested custom department property to department, carrying
email and the profile picture URL over for giver and receiver. -/
def specFilterReshape : List BonusResult → List Recognition
  | [] => []
  | b :: rest =>
    if b.receiver.country = "BD" then
      { amount := b.amount
        reason_decoded := b.reason_decoded
        giver :=
          { name := b.giver.display_name
            email := b.giver.email
            department := b.giver.custom_properties.department
            profile_pic_url := b.giver.profile_pic_url }
        receiver :=
          { name := b.receiver.display_name
            email := b.receiver.email
            department := b.receiver.custom_properties.department
            profile_pic_url := b.receiver.profile_pic_url } } :: specFilterReshape rest
    else
      specFilterReshape rest

/-- State of the RecognitionTicker component that the animation touches:
the scrollPosition useState value, the lastTimeRef ref (none models an
undefined ref), and whether a frame callback is currently scheduled via
requestAnimationFrame. -/
structure TickerState where
  scrollPosition : ℚ
  lastTime : Option ℚ
  scheduled : Bool
deriving DecidableEq, Repr

/-- State at mount: useState(0) for the position, lastTimeRef undefined,
no frame callback scheduled. -/
def initialTicker : TickerState :=
  { scrollPosition := 0, lastTime := none, scheduled := false }

/-- Position updater passed to setScrollPosition inside animate: if the
previous position has reached the content height, restart at 0,
otherwise add the pixels to scroll for this frame. -/
def scrollUpdate (contentHeight prevPosition pixelsToScroll : ℚ) : ℚ :=
  if prevPosition ≥ contentHeight then 0 else prevPosition + pixelsToScroll

/-- One invocation of the animate frame callback. When no callback is
scheduled nothing runs. Otherwise: the lastTimeRef falsy check of the
source treats both an undefined ref and a stored 0 as unset, so the
elapsed delta is 0 on such a frame; the advance is speed divided by 1000
times delta; the position is updated through scrollUpdate; lastTimeRef
is set to the timestamp and the next callback is scheduled. -/
def animateFrame (speed contentHeight timestamp : ℚ) (s : TickerState) : TickerState :=
  if s.scheduled then
    let lastTime : ℚ :=
      match s.lastTime with
      | none => timestamp
      | some t => if t = 0 then timestamp else t
    let delta := timestamp - lastTime
    let pixelsToScroll := speed / 1000 * delta
    { scrollPosition := scrollUpdate contentHeight s.scrollPosition pixelsToScroll
      lastTime := some timestamp
      scheduled := true }
  else s

/-- One run of the animation useEffect after its dependencies change:
the cleanup of the previous run cancels any in-flight frame callback,
then the new body returns early when the content fits in the container
and otherwise schedules a frame callback. The scroll position and the
lastTimeRef ref are not touched by either the cleanup or the body. -/
def animationEffect (contentHeight containerHeight : ℚ) (s : TickerState) : TickerState :=
  let s1 : TickerState := { s with scheduled := false }
  if contentHeight ≤ containerHeight then s1
  else { s1 with scheduled := true }

/-- Run of a sequence of frame callbacks with the given timestamps. -/
def runFrames (speed contentHeight : ℚ) (timestamps : List ℚ) (s : TickerState) : TickerState :=
  timestamps.foldl (fun st ts => animateFrame speed contentHeight ts st) s

/-- Display list construction of RecognitionTicker: the input sequence
followed by its first duplicateCount elements, where duplicateCount is
the minimum of 3 and the input length. -/
def displayRecognitions (recognitions : List Recognition) : List Recognition :=
  recognitions ++ recognitions.take (min 3 recognitions.length)

/-- Transition style attribute rendered by RecognitionTicker: none when
the scroll position is exactly 0, the linear transform transition
otherwise. -/
def transitionValue (scrollPosition : ℚ) : String :=
  if scrollPosition = 0 then "none" else "transform 100ms linear"

/-- Split of a list of characters on the space character, mirroring the
JavaScript split on a single-space separator: splitting the empty string
yields one empty word, and consecutive spaces yield empty words. -/
def splitOnSpace : List Char → List (List Char)
  | [] => [[]]
  | c :: cs =>
    let rest := splitOnSpace cs
    if c = ' ' then [] :: rest
    else
      match rest with
      | [] => [[c]]
      | w :: ws => (c :: w) :: ws

/-- Avatar-fallback initials helper getInitials of RecognitionCard:
split the name on spaces, take the first character of each word (an
empty word contributes nothing, as the join of the source renders an
undefined entry as the empty string), join, convert to upper case, and
keep the first two characters. -/
def getInitials (name : List Char) : List Char :=
  ((((splitOnSpace name).map (fun w => w.take 1)).flatten).map Char.toUpper).take 2

/-- Specification-level initials: the concatenation of the upper-cased
first character of each space-separated word, truncated to two
characters. -/
def initialsSpec (name : List Char) : List Char :=
  (((splitOnSpace name).map (fun w => (w.take 1).map Char.toUpper)).flatten).take 2

/-- Sample user located in the target region BD, for concrete runs. -/
def userBD : User :=
  { display_name := "Alice Rahman"
    email := "alice@example.com"
    country := "BD"
    custom_properties :=
      { department := "Engineering"
        location := "Dhaka"
        role := "Engineer"
        employment_status := none }
    manager_email := "boss@example.com"
    profile_pic_url := "https://pics.example.com/alice" }

/-- Sample user located outside the target region, for concrete runs. -/
def userUS : User :=
  { display_name := "Bob Smith"
    email := "bob@example.com"
    country := "US"
    custom_properties :=
      { department := "Sales"
        location := "Austin"
        role := "Rep"
        employment_status := some "active" }
    manager_email := "lead@example.com"
    profile_pic_url := "https://pics.example.com/bob" }

/-- Sample bonus whose receiver is in region BD. -/
def bonusBD : BonusResult :=
  { amount := 10
    giver := userUS
    receiver := userBD
    reason := "+10 thanks"
    reason_decoded := "thanks"
    created_at := "2024-01-01" }

/-- Sample bonus whose receiver is in region US. -/
def bonusUS : BonusResult :=
  { amount := 5
    giver := userBD
    receiver := userUS
    reason := "+5 kudos"
    reason_decoded := "kudos"
    created_at := "2024-01-02" }

theorem filterAndReshape_cons (b : BonusResult) (rest : List BonusResult) :
    filterAndReshape (b :: rest) =
      if b.receiver.country = "BD" then
        { amount := b.amount
          reason_decoded := b.reason_decoded
          giver :=
            { name := b.giver.display_name
              email := b.giver.email
              department := b.giver.custom_properties.department
              profile_pic_url := b.giver.profile_pic_url }
          receiver :=
            { name := b.receiver.display_name
              email := b.receiver.email
              department := b.receiver.custom_properties.department
              profile_pic_url := b.receiver.profile_pic_url } } :: filterAndReshape rest
      else filterAndReshape rest := by
  by_cases h : b.receiver.country = "BD" <;>
    simp [filterAndReshape, List.filter_cons, h]

/-- C3: the filter-and-reshape stage of the feed loader retains exactly
the records whose receiver country is BD, in their original relative
order, and flattens each retained record to the Recognition shape with
display name mapped to name, the nested custom department property
mapped to department, and email and profile picture URL carried over for
giver and receiver; this is the statement that the source stage agrees
with the specification-level recursion on every input sequence. -/
theorem filterAndReshape_matches_spec (l : List BonusResult) :
    filterAndReshape l = specFilterReshape l := by
  induction l with
  | nil => rfl
  | cons b rest ih =>
    rw [filterAndReshape_cons]
    by_cases h : b.receiver.country = "BD" <;> simp [specFilterReshape, h, ih]

/-- C5: the rendered display list is the input sequence followed by its
first min 3 len elements: its length is the input length plus
min 3 len, its first len elements are the input itself, and the
appended tail is exactly the take of min 3 len of the input. -/
theorem displayRecognitions_structure (l : List Recognition) :
    (displayRecognitions l).length = l.length + min 3 l.length ∧
    (displayRecognitions l).take l.length = l ∧
    (displayRecognitions l).drop l.length = l.take (min 3 l.length) := by
  refine ⟨?_, ?_, ?_⟩
  · simp only [displayRecognitions, List.length_append, List.length_take]
    omega
  · unfold displayRecognitions
    exact List.take_left l (l.take (min 3 l.length))
  · unfold displayRecognitions
    exact List.drop_left l (l.take (min 3 l.length))

/-- C9: the filter-and-reshape stage is a function of the subsequence of
records whose receiver country is BD alone: two collected sequences
that agree on that subsequence produce identical outputs, so the field
values of non-BD records have no influence on the result. -/
theorem filterAndReshape_noninterference (l1 l2 : List BonusResult)
    (h : l1.filter (fun b => b.receiver.country = "BD") =
      l2.filter (fun b => b.receiver.country = "BD")) :
    filterAndReshape l1 = filterAndReshape l2 := by
  unfold filterAndReshape
  rw [h]

theorem filterAndReshape_noninterference_check :
    ([bonusBD, bonusUS].filter (fun b => b.receiver.country = "BD") =
      [bonusBD].filter (fun b => b.receiver.country = "BD")) ∧
    filterAndReshape [bonusBD, bonusUS] = filterAndReshape [bonusBD] :=
  ⟨by decide, filterAndReshape_noninterference [bonusBD, bonusUS] [bonusBD] (by decide)⟩

/-- C10: for every name, the avatar-fallback initials helper returns at
most two characters, and its output is the concatenation of the
upper-cased first character of each space-separated word truncated to
two characters. -/
theorem getInitials_spec (name : List Char) :
    (getInitials name).length ≤ 2 ∧ getInitials name = initialsSpec name := by
  constructor
  · simp only [getInitials, List.length_take]
    omega
  · simp only [getInitials, initialsSpec, List.map_flatten, List.map_map]
    have h : (List.map Char.toUpper ∘ fun w : List Char => List.take 1 w)
        = fun w : List Char => List.take 1 (List.map Char.toUpper w) := by
      funext w
      simp [List.map_take]
    rw [h]
    simp [List.map_take]

/-- Concrete API for the pagination scenario of the spec: pages of
sizes 100, 100, 37 at skips 0, 100, 200, and an empty successful page
everywhere else. -/
def apiPages : Nat → PageResponse := fun skip =>
  if skip = 0 then { success := true, result := List.replicate 100 bonusBD }
  else if skip = 100 then { success := true, result := List.replicate 100 bonusBD }
  else if skip = 200 then { success := true, result := List.replicate 37 bonusBD }
  else { success := true, result := [] }

/-- Concrete API whose every page reports failure. -/
def apiFail : Nat → PageResponse := fun _ => { success := false, result := [] }

/-- C2: when the pages at skips 0, 100, 200, 300 are successful with
sizes 100, 100, 37, 0, the pagination loop requests exactly those four
skips in order, collects the three non-empty pages in order for a raw
sequence of length 237, and stops after the empty page; in general a
successful empty page stops the loop at once and a successful non-empty
page appends its records and continues with the skip increased by the
page size 100. -/
theorem getBonuses_pagination (api : Nat → PageResponse) (skip fuel : Nat)
    (trace : List Nat) (results : List BonusResult)
    (h0s : (api 0).success = true) (h0 : (api 0).result.length = 100)
    (h1s : (api 100).success = true) (h1 : (api 100).result.length = 100)
    (h2s : (api 200).success = true) (h2 : (api 200).result.length = 37)
    (h3s : (api 300).success = true) (h3 : (api 300).result.length = 0) :
    getBonusesLoop api 5 0 [] [] =
      some ([0, 100, 200, 300],
        LoopResult.ok ((api 0).result ++ ((api 100).result ++ (api 200).result))) ∧
    ((api 0).result ++ ((api 100).result ++ (api 200).result)).length = 237 ∧
    ((api skip).success = true → (api skip).result.length = 0 →
      getBonusesLoop api (fuel + 1) skip trace results =
        some (trace ++ [skip], LoopResult.ok results)) ∧
    ((api skip).success = true → 0 < (api skip).result.length →
      getBonusesLoop api (fuel + 1) skip trace results =
        getBonusesLoop api fuel (skip + 100) (trace ++ [skip]) (results ++ (api skip).result)) := by
  refine ⟨?_, ?_, ?_, ?_⟩
  · simp [getBonusesLoop, h0s, h0, h1s, h1, h2s, h2, h3s, h3]
  · simp [List.length_append, h0, h1, h2]
  · intro hs hlen
    simp [getBonusesLoop, hs, hlen]
  · intro hs hlen
    simp [getBonusesLoop, hs, hlen]

theorem getBonuses_pagination_check :
    ((apiPages 0).success = true ∧ (apiPages 0).result.length = 100 ∧
      (apiPages 100).success = true ∧ (apiPages 100).result.length = 100 ∧
      (apiPages 200).success = true ∧ (apiPages 200).result.length = 37 ∧
      (apiPages 300).success = true ∧ (apiPages 300).result.length = 0) ∧
    (getBonusesLoop apiPages 5 0 [] [] =
      some ([0, 100, 200, 300],
        LoopResult.ok ((apiPages 0).result ++ ((apiPages 100).result ++ (apiPages 200).result))) ∧
    ((apiPages 0).result ++ ((apiPages 100).result ++ (apiPages 200).result)).length = 237 ∧
    ((apiPages 300).success = true → (apiPages 300).result.length = 0 →
      getBonusesLoop apiPages (0 + 1) 300 [0, 100, 200] [] =
        some ([0, 100, 200] ++ [300], LoopResult.ok [])) ∧
    ((apiPages 300).success = true → 0 < (apiPages 300).result.length →
      getBonusesLoop apiPages (0 + 1) 300 [0, 100, 200] [] =
        getBonusesLoop apiPages 0 (300 + 100) ([0, 100, 200] ++ [300])
          ([] ++ (apiPages 300).result))) :=
  ⟨⟨rfl, by simp [apiPages], rfl, by simp [apiPages], rfl, by simp [apiPages], rfl,
      by simp [apiPages]⟩,
    getBonuses_pagination apiPages 300 0 [0, 100, 200] [] rfl (by simp [apiPages]) rfl
      (by simp [apiPages]) rfl (by simp [apiPages]) rfl (by simp [apiPages])⟩

/-- C4: a page response with a false success flag makes the loop stop at
that request with the single fetch error, requesting no further page and
keeping none of the records already collected, and whenever the loop
ends in the fetch error the whole feed loader returns the single error
and no records. -/
theorem getBonuses_failure_aborts (api : Nat → PageResponse) (fuel skip : Nat)
    (trace t : List Nat) (results : List BonusResult)
    (hfail : (api skip).success = false) :
    getBonusesLoop api (fuel + 1) skip trace results =
      some (trace ++ [skip], LoopResult.fetchError) ∧
    (getBonusesLoop api fuel 0 [] [] = some (t, LoopResult.fetchError) →
      getBonuses api fuel = some (Except.error "failed to fetch bonuses")) := by
  constructor
  · simp [getBonusesLoop, hfail]
  · intro h
    unfold getBonuses
    rw [h]

theorem getBonuses_failure_aborts_check :
    (apiFail 0).success = false ∧
    (getBonusesLoop apiFail (1 + 1) 0 [] [] =
      some ([] ++ [0], LoopResult.fetchError) ∧
    (getBonusesLoop apiFail 1 0 [] [] = some ([0], LoopResult.fetchError) →
      getBonuses apiFail 1 = some (Except.error "failed to fetch bonuses"))) :=
  ⟨rfl, getBonuses_failure_aborts apiFail 1 0 [] [0] [] rfl⟩

theorem runFrames_not_scheduled (speed contentHeight : ℚ) (timestamps : List ℚ) :
    ∀ s : TickerState, s.scheduled = false →
      runFrames speed contentHeight timestamps s = s := by
  induction timestamps with
  | nil =>
    intro s _
    rfl
  | cons ts rest ih =>
    intro s h
    have hframe : animateFrame speed contentHeight ts s = s := by
      simp [animateFrame, h]
    show runFrames speed contentHeight rest (animateFrame speed contentHeight ts s) = s
    rw [hframe]
    exact ih s h

/-- Reachable state exhibiting the late wrap: content height 10, the
offset advances from 0 to 15 in one frame and is left at 15, at or
beyond the content extent, without being reset. -/
def cexWrapLate : TickerState :=
  runFrames 15000 10 [1, 2] (animationEffect 10 5 initialTicker)

/-- C1 counterexample: with content extent 10 and container extent 5, a
frame whose advance is 15 leaves the offset at 15, which reaches and
exceeds the content extent yet is not wrapped to 0, so the offset does
not lie in the claimed interval. -/
theorem ticker_offset_exceeds_extent :
    cexWrapLate.scrollPosition = 15 ∧
    (10 : ℚ) ≤ cexWrapLate.scrollPosition ∧
    ¬ cexWrapLate.scrollPosition = 0 ∧
    ¬ cexWrapLate.scrollPosition < 10 := by
  have h : cexWrapLate.scrollPosition = 15 := by
    norm_num [cexWrapLate, runFrames, animateFrame, animationEffect, scrollUpdate,
      initialTicker]
  refine ⟨h, by rw [h]; norm_num, by rw [h]; norm_num, by rw [h]; norm_num⟩

/-- C1 (amended): the position updater of animate checks the previous
offset, not the new one: when the previous offset has reached the
content extent the new offset is exactly 0 regardless of the advance,
and otherwise the new offset is the previous offset plus the advance, so
the offset never becomes negative, strictly increases on frames with a
positive advance while below the content extent, can end a frame at or
beyond the content extent, exceeding it by less than that one advance,
and is wrapped to exactly 0 only on the following frame. -/
theorem scrollUpdate_wrap_semantics (contentHeight prevPosition pixelsToScroll : ℚ)
    (hp : 0 ≤ prevPosition) (ha : 0 ≤ pixelsToScroll) :
    (contentHeight ≤ prevPosition →
      scrollUpdate contentHeight prevPosition pixelsToScroll = 0) ∧
    (prevPosition < contentHeight →
      scrollUpdate contentHeight prevPosition pixelsToScroll =
        prevPosition + pixelsToScroll) ∧
    0 ≤ scrollUpdate contentHeight prevPosition pixelsToScroll ∧
    (prevPosition < contentHeight → 0 < pixelsToScroll →
      prevPosition < scrollUpdate contentHeight prevPosition pixelsToScroll) ∧
    (prevPosition < contentHeight →
      scrollUpdate contentHeight prevPosition pixelsToScroll <
        contentHeight + pixelsToScroll) := by
  have hif : scrollUpdate contentHeight prevPosition pixelsToScroll =
      if prevPosition ≥ contentHeight then 0
      else prevPosition + pixelsToScroll := rfl
  by_cases h : contentHeight ≤ prevPosition
  · rw [hif, if_pos h]
    exact ⟨fun _ => rfl, fun hlt => absurd h (not_le.mpr hlt), le_refl 0,
      fun hlt _ => absurd h (not_le.mpr hlt), fun hlt => absurd h (not_le.mpr hlt)⟩
  · rw [hif, if_neg h]
    exact ⟨fun hle => absurd hle h, fun _ => rfl, by linarith,
      fun _ hadv => by linarith, fun hlt => by linarith⟩

theorem scrollUpdate_wrap_semantics_check :
    (0 : ℚ) ≤ 4 ∧ (0 : ℚ) ≤ 3 ∧
    (((10 : ℚ) ≤ 4 → scrollUpdate 10 4 3 = 0) ∧
      ((4 : ℚ) < 10 → scrollUpdate 10 4 3 = 4 + 3) ∧
      (0 : ℚ) ≤ scrollUpdate 10 4 3 ∧
      ((4 : ℚ) < 10 → (0 : ℚ) < 3 → (4 : ℚ) < scrollUpdate 10 4 3) ∧
      ((4 : ℚ) < 10 → scrollUpdate 10 4 3 < 10 + 3)) :=
  ⟨by norm_num, by norm_num,
    scrollUpdate_wrap_semantics 10 4 3 (by norm_num) (by norm_num)⟩

/-- Reachable state in which the offset was animated to 30 and the
extents then changed so that the content fits in the container. -/
def cexContentFits : TickerState :=
  animationEffect 100 200 (runFrames 30 100 [1, 1001] (animationEffect 100 50 initialTicker))

/-- C6 counterexample: a reachable state with content extent 100 at most
the container extent 200 whose offset is 30; no further frame changes
it, so the offset remains 30 and not 0. -/
theorem offset_not_reset_when_content_fits :
    (100 : ℚ) ≤ 200 ∧
    cexContentFits.scheduled = false ∧
    cexContentFits.scrollPosition = 30 ∧
    (runFrames 30 100 [2001, 3001] cexContentFits).scrollPosition = 30 ∧
    ¬ (runFrames 30 100 [2001, 3001] cexContentFits).scrollPosition = 0 := by
  have hstate : cexContentFits =
      { scrollPosition := 30, lastTime := some 1001, scheduled := false } := by
    norm_num [cexContentFits, runFrames, animateFrame, animationEffect, scrollUpdate,
      initialTicker]
  have hrun : runFrames 30 100 [2001, 3001] cexContentFits = cexContentFits :=
    runFrames_not_scheduled 30 100 [2001, 3001] cexContentFits (by rw [hstate])
  rw [hrun, hstate]
  norm_num

/-- C6 (amended): when the content extent is at most the container
extent the animation effect leaves no frame callback scheduled and no
frame callback ever runs, so the scroll offset remains unchanged for all
frames: it stays 0 exactly when it was 0 already, as on initial mount,
but a nonzero offset reached before the extents changed is frozen, not
reset to 0. -/
theorem no_anim_when_content_fits (speed contentHeight containerHeight : ℚ)
    (timestamps : List ℚ) (s : TickerState)
    (h : contentHeight ≤ containerHeight) :
    (animationEffect contentHeight containerHeight s).scheduled = false ∧
    (animationEffect contentHeight containerHeight s).scrollPosition = s.scrollPosition ∧
    runFrames speed contentHeight timestamps (animationEffect contentHeight containerHeight s) =
      animationEffect contentHeight containerHeight s := by
  have heff : animationEffect contentHeight containerHeight s =
      { s with scheduled := false } := by
    simp [animationEffect, h]
  refine ⟨by rw [heff], by rw [heff], ?_⟩
  exact runFrames_not_scheduled speed contentHeight timestamps _ (by rw [heff])

theorem no_anim_when_content_fits_check :
    (5 : ℚ) ≤ 10 ∧
    ((animationEffect 5 10 initialTicker).scheduled = false ∧
      (animationEffect 5 10 initialTicker).scrollPosition = initialTicker.scrollPosition ∧
      runFrames 30 5 [1, 2] (animationEffect 5 10 initialTicker) =
        animationEffect 5 10 initialTicker) :=
  ⟨by norm_num, no_anim_when_content_fits 30 5 10 [1, 2] initialTicker (by norm_num)⟩

/-- Reachable state right after a restart of the animation effect: the
offset was animated to 30, then the content extent changed from 100 to
200, re-running the effect. -/
def cexRestart : TickerState :=
  animationEffect 200 50 (runFrames 30 100 [1, 1001] (animationEffect 100 50 initialTicker))

/-- C7 counterexample: after the dependency change restarts the effect,
the offset is still 30, not 0, and the last-frame timestamp still holds
the stale value 1001, so the first frame after the restart at timestamp
2001 advances from 30 with elapsed time 1000 ms, reaching 60 rather than
advancing from offset 0 with elapsed time 0. -/
theorem restart_keeps_offset_and_timing :
    cexRestart.scrollPosition = 30 ∧
    ¬ cexRestart.scrollPosition = 0 ∧
    cexRestart.lastTime = some 1001 ∧
    (animateFrame 30 200 2001 cexRestart).scrollPosition = 60 := by
  have hstate : cexRestart =
      { scrollPosition := 30, lastTime := some 1001, scheduled := true } := by
    norm_num [cexRestart, runFrames, animateFrame, animationEffect, scrollUpdate,
      initialTicker]
  rw [hstate]
  refine ⟨rfl, by norm_num, rfl, ?_⟩
  norm_num [animateFrame, scrollUpdate]

/-- C7 (amended): a change of the input sequence or of a measured extent
only cancels the in-flight frame callback and re-decides whether to
animate; it does not reset the scroll offset and does not reset the
last-frame timestamp, both of which are carried over unchanged into the
restarted effect, so a restarted animation continues from the previous
offset with elapsed time measured from the stale last-frame timestamp;
the offset is 0 and the timing reference unset only at initial mount. -/
theorem animationEffect_preserves_state (contentHeight containerHeight : ℚ)
    (s : TickerState) :
    (animationEffect contentHeight containerHeight s).scrollPosition = s.scrollPosition ∧
    (animationEffect contentHeight containerHeight s).lastTime = s.lastTime ∧
    ((animationEffect contentHeight containerHeight s).scheduled = true ↔
      containerHeight < contentHeight) ∧
    initialTicker.scrollPosition = 0 ∧ initialTicker.lastTime = none := by
  by_cases h : contentHeight ≤ containerHeight
  · refine ⟨by simp [animationEffect, h], by simp [animationEffect, h], ?_, rfl, rfl⟩
    simp [animationEffect, h]
  · refine ⟨by simp [animationEffect, h], by simp [animationEffect, h], ?_, rfl, rfl⟩
    simp [animationEffect, h]
    exact not_le.mp h

/-- C8 counterexample: at mount the offset is 0 and stays 0 on the first
frame, whose elapsed time is 0; this frame takes the non-wrap branch of
the updater since 0 is below the content extent 100, yet the rendered
transition is none, that is disabled, so the transition is not disabled
exclusively on wrap-reset frames. -/
theorem transition_disabled_without_wrap :
    ¬ (100 : ℚ) ≤ (animationEffect 100 50 initialTicker).scrollPosition ∧
    (animateFrame 30 100 1 (animationEffect 100 50 initialTicker)).scrollPosition = 0 ∧
    transitionValue
      ((animateFrame 30 100 1 (animationEffect 100 50 initialTicker)).scrollPosition) =
      "none" := by
  have heff : animationEffect 100 50 initialTicker =
      { scrollPosition := 0, lastTime := none, scheduled := true } := by
    norm_num [animationEffect, initialTicker]
  have hframe : (animateFrame 30 100 1 (animationEffect 100 50 initialTicker)).scrollPosition
      = 0 := by
    rw [heff]
    norm_num [animateFrame, scrollUpdate]
  refine ⟨by rw [heff]; norm_num, hframe, by rw [hframe]; rfl⟩

/-- C8 (amended): the rendered transition is disabled exactly when the
offset equals 0 and enabled exactly when it is nonzero; every wrap-reset
frame leaves the offset at exactly 0 and therefore disabled, but the
offset is also 0, with the transition equally disabled, on frames where
no wrap happened, such as at mount and on the first frame. -/
theorem transition_disabled_iff_offset_zero (speed contentHeight timestamp : ℚ)
    (s : TickerState) (hs : s.scheduled = true)
    (hw : contentHeight ≤ s.scrollPosition) :
    (∀ p : ℚ, transitionValue p = "none" ↔ p = 0) ∧
    (animateFrame speed contentHeight timestamp s).scrollPosition = 0 ∧
    transitionValue (animateFrame speed contentHeight timestamp s).scrollPosition =
      "none" := by
  have hiff : ∀ p : ℚ, transitionValue p = "none" ↔ p = 0 := by
    intro p
    unfold transitionValue
    split
    · case isTrue h => simp [h]
    · case isFalse h => simp [h]
  have hpos : (animateFrame speed contentHeight timestamp s).scrollPosition = 0 := by
    simp [animateFrame, hs, scrollUpdate, hw]
  exact ⟨hiff, hpos, by rw [hpos]; rfl⟩

theorem transition_disabled_iff_offset_zero_check :
    ({ scrollPosition := 10, lastTime := some 1, scheduled := true } : TickerState).scheduled
      = true ∧
    (10 : ℚ) ≤
      ({ scrollPosition := 10, lastTime := some 1, scheduled := true } : TickerState).scrollPosition ∧
    ((∀ p : ℚ, transitionValue p = "none" ↔ p = 0) ∧
      (animateFrame 30 10 5
        { scrollPosition := 10, lastTime := some 1, scheduled := true }).scrollPosition = 0 ∧
      transitionValue
        (animateFrame 30 10 5
          { scrollPosition := 10, lastTime := some 1, scheduled := true }).scrollPosition =
        "none") :=
  ⟨rfl, by norm_num,
    transition_disabled_iff_offset_zero 30 10 5
      { scrollPosition := 10, lastTime := some 1, scheduled := true } rfl (by norm_num)⟩
